import Mathlib

/-!
Verification development for the ai-blog generation service.

The definitions below are a shallow embedding of `src/ai-blog/ai.service.ts`
(`generateTextByUserDescription`, `create`, `update`), of the HTTP boundary in
`src/app.controller.ts` (`generateText`), and of the per-run conversation
history mechanism (`ChatMessageHistory` / `RunnableWithMessageHistory`).
JavaScript runtime conventions that the source relies on are modelled
explicitly: template-literal interpolation of an undefined value renders the
text "undefined", string truthiness treats undefined and the empty string as
falsy, an undefined key in a Mongoose update document is dropped, leaving
the stored field unchanged, and a constructor key that the Post schema does
not declare is stripped at save by Mongoose strict mode (the schema declares
only image and text).
-/

set_option maxRecDepth 8192

namespace AiBlog

/-- JS template-literal interpolation of a possibly-undefined string value:
an undefined value renders as the text "undefined". -/
def jsStr : Option String → String
  | none => "undefined"
  | some s => s

/-- JS truthiness of a possibly-undefined string: undefined and the empty
string are falsy, every other string is truthy. -/
def jsTruthy : Option String → Bool
  | none => false
  | some s => !s.isEmpty

/-- JS default rendering of a string array inside a template literal
(Array.prototype.toString): elements joined with commas. -/
def jsArr (l : List String) : String := String.intercalate "," l

/-- JS Number(s) for the unsigned integer numerals used as article lengths
(the ArticleLength enum values "4", "5", "6", "8", "10"); any other string
yields none, standing for NaN. -/
def jsNumber (s : String) : Option Int :=
  let cs := s.toList
  if cs ≠ [] ∧ cs.all Char.isDigit then
    some (cs.foldl (fun acc c => 10 * acc + ((c.toNat : Int) - 48)) 0)
  else none

/-- The headings override object of the generation request:
`{ introduction, mainBody, conclusion }`. -/
structure BlogHeadings where
  introduction : String
  mainBody : String
  conclusion : String
deriving DecidableEq

/-- The argument list of `generateTextByUserDescription`. Fields that can
arrive undefined at runtime (all the optionals of the inbound
`generateArticle` payload) are Options. -/
structure GenRequest where
  description : String
  articleLength : String
  layoutStructure : String
  callToAction : Option String := none
  toneOfVoice : Option String := none
  languageComplexity : Option String := none
  vocabularyLevel : Option String := none
  formalityLevel : Option String := none
  tempOfVoice : Option String := none
  keywords : List String := []
  headings : Option BlogHeadings := none
  subheadings : Option (List String) := none
  link : Option String := none
  infoContentFile : Option String := none
  sampleTextFile : Option String := none
  sampleKeywordsFile : Option String := none
deriving DecidableEq

/-- `blogFromLink`: clause present only when `link` is truthy. -/
def blogFromLink (r : GenRequest) : String :=
  if jsTruthy r.link then
    "include the information from this link - " ++ jsStr r.link ++ "."
  else ""

/-- `headingIntroduction`: guarded by `headings && headings.introduction`. -/
def headingIntroduction (r : GenRequest) : String :=
  match r.headings with
  | some h =>
    if !h.introduction.isEmpty then
      "Use this heading in introduction - " ++ h.introduction ++ "."
    else ""
  | none => ""

/-- `headingBody`: in the source this clause is guarded by
`headings && headings.introduction` (not by `mainBody`). -/
def headingBody (r : GenRequest) : String :=
  match r.headings with
  | some h =>
    if !h.introduction.isEmpty then
      "Use this heading in middle sections - " ++ h.mainBody ++ "."
    else ""
  | none => ""

/-- `headingConclusion`: also guarded by `headings && headings.introduction`
in the source. -/
def headingConclusion (r : GenRequest) : String :=
  match r.headings with
  | some h =>
    if !h.introduction.isEmpty then
      "Use this heading in conclusion sections - " ++ h.conclusion ++ "."
    else ""
  | none => ""

/-- `postSample`: clause present only when `sampleTextFile` is truthy. -/
def postSample (r : GenRequest) : String :=
  if jsTruthy r.sampleTextFile then
    "use this text as a " ++ jsStr r.sampleTextFile ++ " for creating a post."
  else ""

/-- `postSubheadingsPhrase`: join of the subheadings when the array is
present and non-empty. -/
def postSubheadingsPhrase (r : GenRequest) : String :=
  match r.subheadings with
  | some l => if l.length ≠ 0 then String.intercalate "; " l else ""
  | none => ""

/-- `postSubheadings`: clause present only when the joined phrase is
non-empty. -/
def postSubheadings (r : GenRequest) : String :=
  if !(postSubheadingsPhrase r).isEmpty then
    "Use this subheadings in this sections - " ++ postSubheadingsPhrase r ++ "."
  else ""

/-- `infoContent`: clause present only when `infoContentFile` is truthy. -/
def infoContent (r : GenRequest) : String :=
  if jsTruthy r.infoContentFile then
    "include the information from this text - " ++ jsStr r.infoContentFile ++ "."
  else ""

/-- `sampleKeywords`: clause present only when `sampleKeywordsFile` is
truthy. -/
def sampleKeywords (r : GenRequest) : String :=
  if jsTruthy r.sampleKeywordsFile then
    "and this keywords - " ++ jsStr r.sampleKeywordsFile
  else ""

/-- First system message of the ChatPromptTemplate (keywords, call to
action, link, info content, sample text). `callToAction` is interpolated
unconditionally, so an undefined value renders as "undefined". -/
def systemMessage1 (r : GenRequest) : String :=
  " Based on the following description, keywords - " ++ jsArr r.keywords ++
  " " ++ sampleKeywords r ++
  "  write a professional blog for business Journal post in HTML format with HTML text markup tags to insert in the <body> section. Include in text Call To Action phrase " ++
  jsStr r.callToAction ++ ". " ++ blogFromLink r ++ " " ++ infoContent r ++
  "\n          The generated blog post should be modern, contain multiple paragraphs, lists, etc., and be well-styled in HTML format. Use inline CSS for a better appearance.  The post should look like a scientific article.  " ++
  postSample r

/-- Second system message (tone and style knobs); every knob is interpolated
unconditionally, so undefined values render as "undefined". -/
def systemMessage2 (r : GenRequest) : String :=
  "The post should have such characteristics: tone Of voice - " ++
  jsStr r.toneOfVoice ++ ", language complexity - " ++
  jsStr r.languageComplexity ++ ", vocabulary level - " ++
  jsStr r.vocabularyLevel ++ ", formality level - " ++
  jsStr r.formalityLevel ++ ", temp Of voice (Passive or Active Voice) - " ++
  jsStr r.tempOfVoice ++
  ".All Blog text should be black. h2 text - \"font-weight: bold\". Blog main text should have \"font-size: 18px; color: black; line-height: 1.6; font-family: Arial, sans-serif;\""

/-- Third system message (constant). -/
def systemMessage3 : String :=
  "Do not explain yourself, just give the answer to the question."

/-- Fourth system message (constant). -/
def systemMessage4 : String :=
  "Do not use body, html, or DOCTYPE html tags. Only use tags for markup."

/-- Fifth system message (layout structure). -/
def systemMessage5 (r : GenRequest) : String :=
  "Layout structure of blog schould be " ++ r.layoutStructure

/-- Sixth system message (constant). -/
def systemMessage6 : String := "Use inline CSS for better appearance."

/-- The six system messages of the prompt, in template order. -/
def systemMessages (r : GenRequest) : List String :=
  [systemMessage1 r, systemMessage2 r, systemMessage3, systemMessage4,
   systemMessage5 r, systemMessage6]

/-- The INTRODUCTION stage input text. -/
def introInput (r : GenRequest) : String :=
  "Write the introduction and the first section (400-500 words) for a four-page magazine article on the topic: " ++
  r.description ++ ". " ++ headingIntroduction r ++ " " ++ blogFromLink r ++
  ". Use HTML tags and inline CSS for styling."

/-- The BODY stage input text for loop index `i`; the subheadings clause is
carried only on the first iteration (`i === 0`). -/
def bodyInput (r : GenRequest) (i : Int) : String :=
  "Do not repeat the previous part, just write the middle sections (800 -1000 words) with two headings as a continuation of the previous post on the topic: " ++
  r.description ++ ". " ++ (if i = 0 then postSubheadings r else "") ++ " " ++
  headingBody r ++ " " ++ blogFromLink r ++
  " Use the same HTML tags and inline CSS for styling."

/-- The CONCLUSION stage input text. -/
def conclusionInput (r : GenRequest) : String :=
  "Do not repeat the previous part, just write the conclusion section as links (800 -1000 words) as a continuation of the previous post on the topic: " ++
  r.description ++ ".  " ++ blogFromLink r ++ " " ++ headingConclusion r

/-- The REFERENCES stage input text (constant). -/
def referencesInput : String :=
  "Do not repeat the previous part, just write the references section as links a list (<ul><li><li/><ul/>) in the Vancouver style. Include links from the internet, from where you took an information and that have similar posts or information relevant to the previous content."

/-- Index sequence of the body loop
`for (let i = 0; i <= postHeadings - 2; i += 2)`, unrolled with structural
fuel so that it evaluates in the kernel; one fuel unit is consumed per loop
test, and the fuel supplied by `bodyIndices` exceeds the number of tests the
loop can perform for the article lengths in scope. -/
def bodyLoopAux (fuel : Nat) (i limit : Int) : List Int :=
  match fuel with
  | 0 => []
  | f + 1 => if i ≤ limit then i :: bodyLoopAux f (i + 2) limit else []

/-- The loop indices issued for `postHeadings = Number(articleLength)`;
a NaN bound (none) makes every loop test false, so the loop body never
runs. -/
def bodyIndices (postHeadings : Option Int) : List Int :=
  match postHeadings with
  | none => []
  | some n => bodyLoopAux (n + 2).toNat 0 (n - 2)

/-- The complete ordered list of stage inputs issued by one run:
INTRODUCTION, then one BODY input per loop index, then CONCLUSION, then
REFERENCES. -/
def stageInputs (r : GenRequest) : List String :=
  [introInput r] ++
  (bodyIndices (jsNumber r.articleLength)).map (bodyInput r) ++
  [conclusionInput r, referencesInput]

/-- Result of one completed generation run: the stage instructions issued in
order, the fragments emitted to the client as articlePartGenerated events in
emission order, the value accumulated in the local variable fullArticle, and
the response field of the returned object. The source returns the string
literal quoted as fullArticle in the response field, not the accumulator
variable. -/
structure RunResult where
  calls : List String
  emitted : List String
  fullArticle : String
  response : String
deriving DecidableEq

/-- The external text service: for the n-th stage call of a run, either the
ordered fragments of the streamed answer, or a failure. -/
abbrev TextOracle := Nat → Except String (List String)

/-- Sequential execution of the stage calls starting at call index `k`:
stops at the first failing call (the thrown error aborts the run), otherwise
collects each stage's fragment list in order. -/
def streamStages (oracle : TextOracle) : Nat → List String → Except String (List (List String))
  | _, [] => .ok []
  | k, _ :: rest =>
    match oracle k with
    | .error e => .error e
    | .ok chunks =>
      match streamStages oracle (k + 1) rest with
      | .error e => .error e
      | .ok out => .ok (chunks :: out)

/-- Shallow embedding of `generateTextByUserDescription`: issues the stage
inputs in order, emits every received fragment to the client and appends it
to fullArticle, and on completion returns an object whose response field is
the string literal "fullArticle" (as in the source). A stage failure is
rethrown as an error. -/
def generateTextByUserDescription (r : GenRequest) (oracle : TextOracle) :
    Except String RunResult :=
  match streamStages oracle 0 (stageInputs r) with
  | .error e => .error e
  | .ok chunkLists =>
    let emitted := chunkLists.flatten
    .ok { calls := stageInputs r
          emitted := emitted
          fullArticle := String.join emitted
          response := "fullArticle" }

/-- The response entity of the post endpoints (`ResponsePostDto`):
`_id`, image, text. -/
structure ResponsePost where
  id : String
  image : Option String
  text : Option String
deriving DecidableEq

/-- The view rendered by the HTTP generation endpoint
(`app.controller.ts` generateText). -/
structure GenerateTextView where
  htmlContent : Option String
  postId : Option String
deriving DecidableEq

/-- Shallow embedding of the generateText handler of `app.controller.ts`:
a successful generation renders the created post, while any error thrown on
the generation path is caught, logged with console.error, and converted to
the empty-content view. The second component is the log output. -/
def generateText (outcome : Except String (Option ResponsePost)) :
    GenerateTextView × List String :=
  match outcome with
  | .ok res =>
    ({ htmlContent := res.bind ResponsePost.text, postId := res.map ResponsePost.id }, [])
  | .error e =>
    ({ htmlContent := some "", postId := some "" },
     ["Error in generating text: " ++ e])

/-- A stored Post document as the service sees it at runtime. The Mongoose
Post schema declares properties only for image and text; description is the
undeclared key that `update` nevertheless reads back
(`blogPost.description`), so it is modelled as an optional field, absent on
every document the program persists. -/
structure StoredPost where
  text : Option String := none
  image : Option String := none
  description : Option String := none
deriving DecidableEq

/-- The post collection: id-keyed documents. -/
abbrev PostStore := List (String × StoredPost)

/-- `postModel.findById`. -/
def findById (store : PostStore) (id : String) : Option StoredPost :=
  (store.find? (fun e => e.1 = id)).map (·.2)

/-- The write performed by `findByIdAndUpdate`: replaces the document stored
under `id`. -/
def storeSet (store : PostStore) (id : String) (p : StoredPost) : PostStore :=
  store.map (fun e => if e.1 = id then (e.1, p) else e)

/-- `toResponsePostDto`. -/
def toResponsePostDto (id : String) (p : StoredPost) : ResponsePost :=
  { id := id, image := p.image, text := p.text }

/-- Mongoose strict mode at save: only the properties the Post schema
declares (text and image) are persisted; the undeclared description key is
silently dropped. -/
def schemaStrip (p : StoredPost) : StoredPost :=
  { text := p.text, image := p.image, description := none }

/-- Shallow embedding of `create`: the model constructor receives text,
image and description, but the save persists only the schema-declared
properties, so the stored document carries no description; no external
service is involved. -/
def create (store : PostStore) (newId : String)
    (description postText imageUrl : String) : PostStore × ResponsePost :=
  let newPost : StoredPost :=
    { text := some postText, image := some imageUrl, description := some description }
  let savedPost := schemaStrip newPost
  (store ++ [(newId, savedPost)], toResponsePostDto newId savedPost)

/-- The update request (`UpdatePostDto`): id plus possibly-undefined text
and image. -/
structure UpdatePostDto where
  id : String
  text : Option String := none
  image : Option String := none
deriving DecidableEq

/-- The image generator (`generateAiImage` wrapping the DALL-E call):
receives the possibly-undefined description and yields an image reference or
fails. -/
abbrev ImageOracle := Option String → Except String String

/-- Shallow embedding of `update`: loads the existing post (failing when the
id is unknown), regenerates the image from the stored description when the
request's image field is truthy, then writes the update document. An
undefined text key is dropped by the store, leaving the stored text
unchanged (Mongoose drops undefined update keys); the description field is
never part of the update document. On success the result carries the new
store, the returned dto, and the list of image-generator invocations (their
arguments) made during the call. -/
def update (store : PostStore) (generateAiImage : ImageOracle)
    (postDto : UpdatePostDto) :
    Except String (PostStore × ResponsePost × List (Option String)) :=
  match findById store postDto.id with
  | none => .error "No posts available"
  | some blogPost =>
    if jsTruthy postDto.image then
      match generateAiImage blogPost.description with
      | .error e => .error e
      | .ok newImage =>
        let updated : StoredPost :=
          { blogPost with
            text := match postDto.text with
                    | some t => some t
                    | none => blogPost.text
            image := some newImage }
        .ok (storeSet store postDto.id updated,
             toResponsePostDto postDto.id updated,
             [blogPost.description])
    else
      let updated : StoredPost :=
        { blogPost with
          text := match postDto.text with
                  | some t => some t
                  | none => blogPost.text
          image := blogPost.image }
      .ok (storeSet store postDto.id updated,
           toResponsePostDto postDto.id updated,
           [])

/-- One conversation turn: the human input of a stage call and the content
the model answered. -/
structure Turn where
  input : String
  content : String
deriving DecidableEq

/-- The message-history heap: every ChatMessageHistory allocated so far,
indexed by allocation order. -/
abbrev HistoryHeap := List (List Turn)

/-- `new ChatMessageHistory()` executed at the start of each invocation of
generateTextByUserDescription: allocates a fresh empty history and returns a
reference to it. -/
def newChatMessageHistory (heap : HistoryHeap) : HistoryHeap × Nat :=
  (heap ++ [[]], heap.length)

/-- The getMessageHistory callback as written in the source: it ignores the
session id and returns the history allocated by its own invocation. -/
def getMessageHistory (runHistory : Nat) (_sessionId : String) : Nat :=
  runHistory

/-- One stage call of a run under RunnableWithMessageHistory: the
conversation context supplied to the external service is read from the
history that getMessageHistory returns for the constant session id "1", and
afterwards the new turn is appended to that same history. Returns the
context that the call observed together with the updated heap. -/
def stageCall (heap : HistoryHeap) (ref : Nat) (t : Turn) :
    List Turn × HistoryHeap :=
  let h := getMessageHistory ref "1"
  let ctx := heap.getD h []
  (ctx, heap.set h (ctx ++ [t]))

/-- Number of scheduler slots handed to run 1. -/
def countTrue : List Bool → Nat
  | [] => 0
  | true :: sch => countTrue sch + 1
  | false :: sch => countTrue sch

/-- Number of scheduler slots handed to run 2. -/
def countFalse : List Bool → Nat
  | [] => 0
  | true :: sch => countFalse sch
  | false :: sch => countFalse sch + 1

/-- Interleaved execution of two concurrent generation runs over the shared
heap: the schedule says which run performs its next stage call (a slot given
to an already-finished run is skipped). Returns, for each run, the list of
conversation contexts its stage calls observed, in order. -/
def execInterleaved : List Bool → HistoryHeap → Nat → List Turn → Nat → List Turn →
    List (List Turn) × List (List Turn)
  | [], _, _, _, _, _ => ([], [])
  | true :: sch, heap, r1, [], r2, ts2 => execInterleaved sch heap r1 [] r2 ts2
  | true :: sch, heap, r1, t :: ts1, r2, ts2 =>
    let step := stageCall heap r1 t
    let rest := execInterleaved sch step.2 r1 ts1 r2 ts2
    (step.1 :: rest.1, rest.2)
  | false :: sch, heap, r1, ts1, r2, [] => execInterleaved sch heap r1 ts1 r2 []
  | false :: sch, heap, r1, ts1, r2, t :: ts2 =>
    let step := stageCall heap r2 t
    let rest := execInterleaved sch step.2 r1 ts1 r2 ts2
    (rest.1, step.1 :: rest.2)

/-- The contexts a run would observe executing alone, starting from history
`done`, with `k` scheduler slots: each stage call sees exactly the turns of
the same run that precede it. -/
def soloContexts (done : List Turn) : List Turn → Nat → List (List Turn)
  | _, 0 => []
  | [], _ + 1 => []
  | t :: ts, k + 1 => done :: soloContexts (done ++ [t]) ts k

/-- Two invocations of generateTextByUserDescription, as in the source: each
allocates its own fresh ChatMessageHistory, then their stage calls are
interleaved by an arbitrary schedule over the shared heap. -/
def execTwoFreshRuns (sch : List Bool) (heap0 : HistoryHeap)
    (ts1 ts2 : List Turn) : List (List Turn) × List (List Turn) :=
  let a1 := newChatMessageHistory heap0
  let a2 := newChatMessageHistory a1.1
  execInterleaved sch a2.1 a1.2 ts1 a2.2 ts2

/-! Helper lemmas. -/

/-- A run whose streaming completed returns the stage inputs as its issued
calls. -/
lemma run_calls_eq (r : GenRequest) (oracle : TextOracle) (res : RunResult)
    (h : generateTextByUserDescription r oracle = .ok res) :
    res.calls = stageInputs r := by
  unfold generateTextByUserDescription at h
  rcases hs : streamStages oracle 0 (stageInputs r) with e | cls <;> rw [hs] at h
  · cases h
  · cases h
    rfl

/-- The first failing stage call aborts the streaming with that failure. -/
lemma streamStages_error (oracle : TextOracle) :
    ∀ (inputs : List String) (k0 k : Nat) (e : String),
      k < inputs.length →
      oracle (k0 + k) = .error e →
      (∀ j, j < k → (oracle (k0 + j)).isOk = true) →
      streamStages oracle k0 inputs = .error e := by
  intro inputs
  induction inputs with
  | nil =>
    intro k0 k e hk _ _
    simp at hk
  | cons a rest ih =>
    intro k0 k e hk herr hok
    cases k with
    | zero =>
      have h0 : oracle k0 = .error e := by simpa using herr
      simp only [streamStages]
      rw [h0]
    | succ n =>
      have h0 := hok 0 (Nat.succ_pos n)
      simp only [Nat.add_zero] at h0
      rcases hh : oracle k0 with e0 | chunks
      · rw [hh] at h0
        simp [Except.isOk, Except.toBool] at h0
      · have herr' : oracle ((k0 + 1) + n) = .error e := by
          rw [show (k0 + 1) + n = k0 + (n + 1) by omega]
          exact herr
        have hok' : ∀ j, j < n → (oracle ((k0 + 1) + j)).isOk = true := by
          intro j hj
          have := hok (j + 1) (by omega)
          rwa [show k0 + (j + 1) = (k0 + 1) + j by omega] at this
        have hrec := ih (k0 + 1) n e (by simpa using hk) herr' hok'
        simp only [streamStages]
        rw [hh, hrec]

/-- Setting a heap cell and reading it back. -/
lemma getD_set_self :
    ∀ (l : HistoryHeap) (i : Nat) (v : List Turn), i < l.length →
      (l.set i v).getD i [] = v := by
  intro l
  induction l with
  | nil =>
    intro i v h
    simp at h
  | cons a l ih =>
    intro i v h
    cases i with
    | zero => rfl
    | succ n =>
      have hn : n < l.length := by simpa using h
      simpa [List.set, List.getD_cons_succ] using ih n v hn

/-- Setting one heap cell leaves every other cell unchanged. -/
lemma getD_set_ne :
    ∀ (l : HistoryHeap) (i j : Nat) (v : List Turn), i ≠ j →
      (l.set i v).getD j [] = l.getD j [] := by
  intro l
  induction l with
  | nil =>
    intro i j v _
    rfl
  | cons a l ih =>
    intro i j v hne
    cases i with
    | zero =>
      cases j with
      | zero => exact absurd rfl hne
      | succ m => simp [List.set, List.getD_cons_succ]
    | succ n =>
      cases j with
      | zero => rfl
      | succ m =>
        have hnm : n ≠ m := fun h => hne (by rw [h])
        simpa [List.set, List.getD_cons_succ] using ih n m v hnm

/-- Reading the first cell just past an existing list. -/
lemma getD_append_self :
    ∀ (l : HistoryHeap) (x : List Turn) (rest : HistoryHeap),
      (l ++ (x :: rest)).getD l.length [] = x := by
  intro l
  induction l with
  | nil =>
    intro x rest
    rfl
  | cons a l ih =>
    intro x rest
    simpa [List.getD_cons_succ] using ih x rest

/-- A run with no remaining stage calls observes no contexts. -/
lemma soloContexts_nil (done : List Turn) (k : Nat) :
    soloContexts done [] k = [] := by
  cases k <;> rfl

/-- Noninterference of interleaved runs over the shared history heap: as long
as the two runs hold references to distinct histories, each run's stage calls
observe exactly the contexts they would observe running alone, regardless of
the schedule and of the other run's turns. -/
lemma execInterleaved_isolated :
    ∀ (sch : List Bool) (heap : HistoryHeap) (r1 r2 : Nat) (ts1 ts2 : List Turn),
      r1 ≠ r2 → r1 < heap.length → r2 < heap.length →
      execInterleaved sch heap r1 ts1 r2 ts2 =
        (soloContexts (heap.getD r1 []) ts1 (countTrue sch),
         soloContexts (heap.getD r2 []) ts2 (countFalse sch)) := by
  intro sch
  induction sch with
  | nil =>
    intro heap r1 r2 ts1 ts2 _ _ _
    simp [execInterleaved, countTrue, countFalse, soloContexts]
  | cons b sch ih =>
    intro heap r1 r2 ts1 ts2 hne h1 h2
    cases b with
    | true =>
      cases ts1 with
      | nil =>
        have step : execInterleaved (true :: sch) heap r1 [] r2 ts2 =
            execInterleaved sch heap r1 [] r2 ts2 := rfl
        rw [step, ih heap r1 r2 [] ts2 hne h1 h2]
        simp [countTrue, countFalse, soloContexts_nil]
      | cons t ts1 =>
        have hlen : (heap.set r1 (heap.getD r1 [] ++ [t])).length = heap.length := by
          simp
        have hrec := ih (heap.set r1 (heap.getD r1 [] ++ [t])) r1 r2 ts1 ts2 hne
          (by rw [hlen]; exact h1) (by rw [hlen]; exact h2)
        have hself := getD_set_self heap r1 (heap.getD r1 [] ++ [t]) h1
        have hother := getD_set_ne heap r1 r2 (heap.getD r1 [] ++ [t]) hne
        have step : execInterleaved (true :: sch) heap r1 (t :: ts1) r2 ts2 =
            ((heap.getD r1 []) ::
              (execInterleaved sch (heap.set r1 (heap.getD r1 [] ++ [t])) r1 ts1 r2 ts2).1,
             (execInterleaved sch (heap.set r1 (heap.getD r1 [] ++ [t])) r1 ts1 r2 ts2).2) := rfl
        rw [step, hrec, hself, hother]
        rfl
    | false =>
      cases ts2 with
      | nil =>
        have step : execInterleaved (false :: sch) heap r1 ts1 r2 [] =
            execInterleaved sch heap r1 ts1 r2 [] := rfl
        rw [step, ih heap r1 r2 ts1 [] hne h1 h2]
        simp [countTrue, countFalse, soloContexts_nil]
      | cons t ts2 =>
        have hlen : (heap.set r2 (heap.getD r2 [] ++ [t])).length = heap.length := by
          simp
        have hrec := ih (heap.set r2 (heap.getD r2 [] ++ [t])) r1 r2 ts1 ts2 hne
          (by rw [hlen]; exact h1) (by rw [hlen]; exact h2)
        have hself := getD_set_self heap r2 (heap.getD r2 [] ++ [t]) h2
        have hother := getD_set_ne heap r2 r1 (heap.getD r2 [] ++ [t]) (fun h => hne h.symm)
        have step : execInterleaved (false :: sch) heap r1 ts1 r2 (t :: ts2) =
            ((execInterleaved sch (heap.set r2 (heap.getD r2 [] ++ [t])) r1 ts1 r2 ts2).1,
             (heap.getD r2 []) ::
              (execInterleaved sch (heap.set r2 (heap.getD r2 [] ++ [t])) r1 ts1 r2 ts2).2) := rfl
        rw [step, hrec, hself, hother]
        rfl

/-! Concrete fixtures used by counterexamples and witnesses. -/

/-- The end-to-end scenario request of the spec: description urban
beekeeping, articleLength 4, layoutStructure magazine, every optional field
absent. -/
def reqMagazine : GenRequest :=
  { description := "urban beekeeping"
    articleLength := "4"
    layoutStructure := "magazine" }

/-- A second concrete request with keywords present. -/
def reqGarden : GenRequest :=
  { description := "gardening"
    articleLength := "5"
    layoutStructure := "listicle"
    keywords := ["soil", "seeds"] }

/-- A stub external text service answering every stage call with the two
fragments Hello and world. -/
def oracleHello : TextOracle := fun _ => .ok ["Hello ", "world"]

/-- A stub external text service failing every call. -/
def oracleDown : TextOracle := fun _ => .error "upstream failure"

/-- A concrete stored post. -/
def post1 : StoredPost :=
  { text := some "old text", image := some "img0.png", description := some "a bee topic" }

/-- A one-document store holding `post1` under id p1. -/
def store1 : PostStore := [("p1", post1)]

/-- A stub image generator that always succeeds. -/
def genFresh : ImageOracle := fun _ => .ok "fresh.png"

/-- A stub image generator that always fails. -/
def genDown : ImageOracle := fun _ => .error "image service down"

/-- Update request with a truthy image value and no text. -/
def dtoImage : UpdatePostDto := { id := "p1", image := some "ignored.png" }

/-- Update request carrying only a text replacement. -/
def dtoText : UpdatePostDto := { id := "p1", text := some "X" }

/-- Update request addressing an unknown id. -/
def dtoUnknown : UpdatePostDto := { id := "nope", text := some "X" }

/-! Claim theorems. -/

/-- C1 counterexample: for articleLength 4 the body loop runs twice, not
once, so the run issues 5 stage calls (1 INTRODUCTION, 2 BODY,
1 CONCLUSION, 1 REFERENCES), not the 4 the claim states. -/
theorem bodyLoop_articleLength_four_runs_twice :
    (bodyIndices (jsNumber reqMagazine.articleLength)).length = 2 ∧
    ¬ (bodyIndices (jsNumber reqMagazine.articleLength)).length = 1 ∧
    (stageInputs reqMagazine).length = 5 ∧
    ¬ (stageInputs reqMagazine).length = 4 := by
  refine ⟨rfl, by decide, rfl, by decide⟩

/-- C1 (amended): for articleLength in {4,5,6,8,10} a completed run issues
its fixed stage-call list, with exactly articleLength / 2 BODY-stage calls
(2, 2, 3, 4 and 5 respectively) and articleLength / 2 + 3 stage calls in
total. -/
theorem bodyStage_and_total_call_counts (r : GenRequest) (oracle : TextOracle)
    (res : RunResult)
    (hmem : r.articleLength ∈ (["4", "5", "6", "8", "10"] : List String))
    (hrun : generateTextByUserDescription r oracle = .ok res) :
    res.calls = stageInputs r ∧
    (bodyIndices (jsNumber r.articleLength)).length =
      ((jsNumber r.articleLength).getD 0).toNat / 2 ∧
    res.calls.length = ((jsNumber r.articleLength).getD 0).toNat / 2 + 3 := by
  have hcalls := run_calls_eq r oracle res hrun
  have hbody : (bodyIndices (jsNumber r.articleLength)).length =
      ((jsNumber r.articleLength).getD 0).toNat / 2 := by
    simp only [List.mem_cons, List.not_mem_nil, or_false] at hmem
    rcases hmem with h | h | h | h | h <;> rw [h] <;> decide
  refine ⟨hcalls, hbody, ?_⟩
  rw [hcalls]
  simp [stageInputs, List.length_append, List.length_map]
  omega

/-- C1 witness: a completed run for the magazine request issues 2 BODY
calls and 5 calls in total. -/
theorem bodyStage_and_total_call_counts_witness :
    reqMagazine.articleLength ∈ (["4", "5", "6", "8", "10"] : List String) ∧
    ∃ res, generateTextByUserDescription reqMagazine oracleHello = .ok res ∧
      (res.calls = stageInputs reqMagazine ∧
       (bodyIndices (jsNumber reqMagazine.articleLength)).length =
         ((jsNumber reqMagazine.articleLength).getD 0).toNat / 2 ∧
       res.calls.length = ((jsNumber reqMagazine.articleLength).getD 0).toNat / 2 + 3) := by
  refine ⟨by decide, ?_⟩
  rcases hx : generateTextByUserDescription reqMagazine oracleHello with e | res
  · have hok : (generateTextByUserDescription reqMagazine oracleHello).isOk = true := rfl
    rw [hx] at hok
    simp [Except.isOk, Except.toBool] at hok
  · exact ⟨res, rfl,
      bodyStage_and_total_call_counts reqMagazine oracleHello res (by decide) hx⟩

/-- C2: for a completed run the concatenation of the emitted fragments is
accumulated in the fullArticle variable, but the returned response field is
the string literal fullArticle, so the two differ on any run with nonempty
output. -/
theorem response_is_literal_not_concatenation :
    (generateTextByUserDescription reqMagazine oracleHello).toOption.map
        RunResult.response = some "fullArticle" ∧
    (generateTextByUserDescription reqMagazine oracleHello).toOption.map
        (fun res => String.join res.emitted) =
      some "Hello worldHello worldHello worldHello worldHello world" ∧
    (generateTextByUserDescription reqMagazine oracleHello).toOption.map
        RunResult.fullArticle =
      some "Hello worldHello worldHello worldHello worldHello world" ∧
    ("Hello worldHello worldHello worldHello worldHello world" : String) ≠
      "fullArticle" := by
  refine ⟨rfl, rfl, rfl, ?_⟩
  decide

/-- C3: when the update request's image is truthy and its text absent, the
image generator is invoked exactly once, with the description stored on the
existing post; the freshly generated reference is persisted as the new image
while the stored text stays unchanged, and the request's literal image value
never influences the outcome. -/
theorem update_truthy_image_regenerates_from_stored_description
    (store : PostStore) (gen : ImageOracle) (dto : UpdatePostDto)
    (post : StoredPost) (img : String)
    (hfind : findById store dto.id = some post)
    (himg : jsTruthy dto.image = true)
    (htext : dto.text = none)
    (hgen : gen post.description = .ok img) :
    update store gen dto =
      .ok (storeSet store dto.id { post with image := some img },
           toResponsePostDto dto.id { post with image := some img },
           [post.description]) ∧
    ∀ v : Option String, jsTruthy v = true →
      update store gen { dto with image := v } = update store gen dto := by
  constructor
  · unfold update
    rw [hfind, htext]
    simp only [himg, if_true]
    rw [hgen]
  · intro v hv
    unfold update
    simp only [himg, hv, if_true]

/-- C3 witness: the scenario at a concrete store, generator and request. -/
theorem update_truthy_image_regenerates_from_stored_description_witness :
    findById store1 dtoImage.id = some post1 ∧
    jsTruthy dtoImage.image = true ∧
    dtoImage.text = none ∧
    genFresh post1.description = .ok "fresh.png" ∧
    (update store1 genFresh dtoImage =
      .ok (storeSet store1 dtoImage.id { post1 with image := some "fresh.png" },
           toResponsePostDto dtoImage.id { post1 with image := some "fresh.png" },
           [post1.description]) ∧
     ∀ v : Option String, jsTruthy v = true →
       update store1 genFresh { dtoImage with image := v } =
         update store1 genFresh dtoImage) :=
  ⟨rfl, rfl, rfl, rfl,
    update_truthy_image_regenerates_from_stored_description store1 genFresh
      dtoImage post1 "fresh.png" rfl rfl rfl rfl⟩

/-- C4: the claim fails on the code: the Post schema declares no
description property, so the document saved by create drops the given
description entirely — reading the created post back yields a document
whose text and image are as given but whose description is absent, never
the argument, so nothing remains for later image regeneration to read. -/
theorem create_drops_description :
    create [] "p9" "a topic" "some text" "pic.png" =
      ([("p9", { text := some "some text", image := some "pic.png",
                 description := none })],
       { id := "p9", image := some "pic.png", text := some "some text" }) ∧
    (findById (create [] "p9" "a topic" "some text" "pic.png").1 "p9").map
        StoredPost.description = some none ∧
    (some none : Option (Option String)) ≠ some (some "a topic") :=
  ⟨rfl, rfl, by decide⟩

/-- C5: a failure of any stage call aborts the generation run with that
error, and at the HTTP generation endpoint the caught error is converted to
the empty-content view while the failure is logged, so the external caller
observes empty content rather than an exception. -/
theorem generation_failure_yields_empty_content (r : GenRequest)
    (oracle : TextOracle) (render : RunResult → Option ResponsePost)
    (k : Nat) (e : String)
    (hk : k < (stageInputs r).length)
    (herr : oracle k = .error e)
    (hok : ∀ j, j < k → (oracle j).isOk = true) :
    generateTextByUserDescription r oracle = .error e ∧
    generateText ((generateTextByUserDescription r oracle).map render) =
      ({ htmlContent := some "", postId := some "" },
       ["Error in generating text: " ++ e]) := by
  have hrun : generateTextByUserDescription r oracle = .error e := by
    unfold generateTextByUserDescription
    rw [streamStages_error oracle (stageInputs r) 0 k e hk (by simpa using herr)
      (by simpa using hok)]
  refine ⟨hrun, ?_⟩
  rw [hrun]
  rfl

/-- C5 witness: the failing service at the first stage call of the magazine
request. -/
theorem generation_failure_yields_empty_content_witness :
    0 < (stageInputs reqMagazine).length ∧
    oracleDown 0 = .error "upstream failure" ∧
    (generateTextByUserDescription reqMagazine oracleDown =
        .error "upstream failure" ∧
     generateText ((generateTextByUserDescription reqMagazine oracleDown).map
        (fun _ => none)) =
      ({ htmlContent := some "", postId := some "" },
       ["Error in generating text: " ++ "upstream failure"])) :=
  ⟨by decide, rfl,
    generation_failure_yields_empty_content reqMagazine oracleDown
      (fun _ => none) 0 "upstream failure" (by decide) rfl
      (fun j hj => absurd hj (Nat.not_lt_zero j))⟩

/-- C6 counterexample: with every optional field absent, the first system
instruction still carries the call-to-action clause, with the interpolated
placeholder text undefined, and the second carries every tone knob as
undefined. -/
theorem callToAction_placeholder_in_instruction :
    systemMessage1 reqMagazine =
      " Based on the following description, keywords -    write a professional blog for business Journal post in HTML format with HTML text markup tags to insert in the <body> section. Include in text Call To Action phrase " ++
      "undefined" ++
      ".  \n          The generated blog post should be modern, contain multiple paragraphs, lists, etc., and be well-styled in HTML format. Use inline CSS for a better appearance.  The post should look like a scientific article.  " ∧
    systemMessage2 reqMagazine =
      "The post should have such characteristics: tone Of voice - " ++
      "undefined" ++
      ", language complexity - undefined, vocabulary level - undefined, formality level - undefined, temp Of voice (Passive or Active Voice) - undefined.All Blog text should be black. h2 text - \"font-weight: bold\". Blog main text should have \"font-size: 18px; color: black; line-height: 1.6; font-family: Arial, sans-serif;\"" :=
  ⟨rfl, rfl⟩

/-- C6 (amended): when the optional link, headings, subheadings, info
content, sample text and sample keywords are absent, every corresponding
clause is omitted entirely (it reduces to the empty string, leaving no
placeholder); the call-to-action phrase and the tone and style knobs,
however, are interpolated unconditionally, so their absence leaves the
clause in place with the placeholder text undefined. -/
theorem absent_optionals_omit_clauses (r : GenRequest)
    (hlink : r.link = none) (hhead : r.headings = none)
    (hsub : r.subheadings = none) (hinfo : r.infoContentFile = none)
    (hsample : r.sampleTextFile = none) (hkw : r.sampleKeywordsFile = none)
    (hcta : r.callToAction = none) :
    blogFromLink r = "" ∧ headingIntroduction r = "" ∧ headingBody r = "" ∧
    headingConclusion r = "" ∧ postSubheadings r = "" ∧ infoContent r = "" ∧
    postSample r = "" ∧ sampleKeywords r = "" ∧
    introInput r =
      "Write the introduction and the first section (400-500 words) for a four-page magazine article on the topic: " ++
      r.description ++ ".  . Use HTML tags and inline CSS for styling." ∧
    systemMessage1 r =
      " Based on the following description, keywords - " ++ jsArr r.keywords ++
      "   write a professional blog for business Journal post in HTML format with HTML text markup tags to insert in the <body> section. Include in text Call To Action phrase undefined.  \n          The generated blog post should be modern, contain multiple paragraphs, lists, etc., and be well-styled in HTML format. Use inline CSS for a better appearance.  The post should look like a scientific article.  " := by
  have h1 : blogFromLink r = "" := by simp [blogFromLink, hlink, jsTruthy]
  have h2 : headingIntroduction r = "" := by simp [headingIntroduction, hhead]
  have h3 : headingBody r = "" := by simp [headingBody, hhead]
  have h4 : headingConclusion r = "" := by simp [headingConclusion, hhead]
  have h5 : postSubheadings r = "" := by
    simp [postSubheadings, postSubheadingsPhrase, hsub, String.isEmpty]
  have h6 : infoContent r = "" := by simp [infoContent, hinfo, jsTruthy]
  have h7 : postSample r = "" := by simp [postSample, hsample, jsTruthy]
  have h8 : sampleKeywords r = "" := by simp [sampleKeywords, hkw, jsTruthy]
  refine ⟨h1, h2, h3, h4, h5, h6, h7, h8, ?_, ?_⟩
  · unfold introInput
    rw [h1, h2]
    simp only [String.append_assoc]
    rfl
  · unfold systemMessage1
    rw [h1, h6, h7, h8, hcta]
    simp only [String.append_assoc]
    rfl

/-- C6 witness: the clause omission at a concrete request with keywords. -/
theorem absent_optionals_omit_clauses_witness :
    reqGarden.link = none ∧ reqGarden.headings = none ∧
    reqGarden.subheadings = none ∧ reqGarden.infoContentFile = none ∧
    reqGarden.sampleTextFile = none ∧ reqGarden.sampleKeywordsFile = none ∧
    reqGarden.callToAction = none ∧
    (blogFromLink reqGarden = "" ∧ headingIntroduction reqGarden = "" ∧
     headingBody reqGarden = "" ∧ headingConclusion reqGarden = "" ∧
     postSubheadings reqGarden = "" ∧ infoContent reqGarden = "" ∧
     postSample reqGarden = "" ∧ sampleKeywords reqGarden = "" ∧
     introInput reqGarden =
       "Write the introduction and the first section (400-500 words) for a four-page magazine article on the topic: " ++
       reqGarden.description ++ ".  . Use HTML tags and inline CSS for styling." ∧
     systemMessage1 reqGarden =
       " Based on the following description, keywords - " ++ jsArr reqGarden.keywords ++
       "   write a professional blog for business Journal post in HTML format with HTML text markup tags to insert in the <body> section. Include in text Call To Action phrase undefined.  \n          The generated blog post should be modern, contain multiple paragraphs, lists, etc., and be well-styled in HTML format. Use inline CSS for a better appearance.  The post should look like a scientific article.  ") :=
  ⟨rfl, rfl, rfl, rfl, rfl, rfl, rfl,
    absent_optionals_omit_clauses reqGarden rfl rfl rfl rfl rfl rfl rfl⟩

/-- C7: updating an unknown id fails with the not-found error before
anything else happens: the image generator is never consulted (the outcome
is the same for every generator) and no store is produced. -/
theorem update_unknown_id_fails (store : PostStore) (gen : ImageOracle)
    (dto : UpdatePostDto) (hfind : findById store dto.id = none) :
    update store gen dto = .error "No posts available" ∧
    ∀ gen' : ImageOracle, update store gen' dto = update store gen dto := by
  have h : ∀ g : ImageOracle, update store g dto = .error "No posts available" := by
    intro g
    unfold update
    rw [hfind]
  exact ⟨h gen, fun g' => (h g').trans (h gen).symm⟩

/-- C7 witness: the unknown id at the concrete one-document store. -/
theorem update_unknown_id_fails_witness :
    findById store1 dtoUnknown.id = none ∧
    (update store1 genFresh dtoUnknown = .error "No posts available" ∧
     ∀ gen' : ImageOracle,
       update store1 gen' dtoUnknown = update store1 genFresh dtoUnknown) :=
  ⟨rfl, update_unknown_id_fails store1 genFresh dtoUnknown rfl⟩

/-- C8: an update carrying only a text replacement leaves the stored image
unchanged, sets the text to exactly the given string, and never consults
the image generator. -/
theorem update_text_only_preserves_image (store : PostStore)
    (gen : ImageOracle) (dto : UpdatePostDto) (post : StoredPost) (x : String)
    (hfind : findById store dto.id = some post)
    (himg : dto.image = none) (htext : dto.text = some x) :
    update store gen dto =
      .ok (storeSet store dto.id { post with text := some x },
           toResponsePostDto dto.id { post with text := some x },
           []) := by
  unfold update
  rw [hfind, himg, htext]
  rfl

/-- C8 witness: the text-only update at the concrete store. -/
theorem update_text_only_preserves_image_witness :
    findById store1 dtoText.id = some post1 ∧
    dtoText.image = none ∧ dtoText.text = some "X" ∧
    update store1 genFresh dtoText =
      .ok (storeSet store1 dtoText.id { post1 with text := some "X" },
           toResponsePostDto dtoText.id { post1 with text := some "X" },
           []) :=
  ⟨rfl, rfl, rfl,
    update_text_only_preserves_image store1 genFresh dtoText post1 "X" rfl rfl rfl⟩

/-- C9: two generation runs, interleaved under any schedule, each allocate
their own fresh message history, and the context every stage call observes
consists exactly of that run's own earlier turns — no context leaks between
runs even though both use the constant session id 1. -/
theorem conversation_isolation_per_run (sch : List Bool) (heap0 : HistoryHeap)
    (ts1 ts2 : List Turn) :
    execTwoFreshRuns sch heap0 ts1 ts2 =
      (soloContexts [] ts1 (countTrue sch),
       soloContexts [] ts2 (countFalse sch)) := by
  have hstep : execTwoFreshRuns sch heap0 ts1 ts2 =
      execInterleaved sch ((heap0 ++ [[]]) ++ [[]]) heap0.length ts1
        (heap0 ++ [[]]).length ts2 := rfl
  have hne : heap0.length ≠ (heap0 ++ [[]] : HistoryHeap).length := by
    simp only [List.length_append, List.length_cons, List.length_nil]
    omega
  have hl1 : heap0.length < ((heap0 ++ [[]]) ++ [[]] : HistoryHeap).length := by
    simp only [List.length_append, List.length_cons, List.length_nil]
    omega
  have hl2 : (heap0 ++ [[]] : HistoryHeap).length <
      ((heap0 ++ [[]]) ++ [[]] : HistoryHeap).length := by
    simp only [List.length_append, List.length_cons, List.length_nil]
    omega
  have e1 : ((heap0 ++ [[]]) ++ [[]]).getD heap0.length [] = ([] : List Turn) := by
    rw [List.append_assoc]
    exact getD_append_self heap0 [] [[]]
  have e2 : ((heap0 ++ [[]]) ++ [[]]).getD (heap0 ++ [[]]).length [] = ([] : List Turn) :=
    getD_append_self (heap0 ++ [[]]) [] []
  have hmain := execInterleaved_isolated sch ((heap0 ++ [[]]) ++ [[]])
    heap0.length (heap0 ++ [[]]).length ts1 ts2 hne hl1 hl2
  rw [e1, e2] at hmain
  rw [hstep]
  exact hmain

/-- C10: when the request's image is truthy, the image generator runs before
any write; if it fails, update propagates exactly that failure and produces
no store update at all, independently of any text carried by the request. -/
theorem image_failure_aborts_update (store : PostStore) (gen : ImageOracle)
    (dto : UpdatePostDto) (post : StoredPost) (e : String)
    (hfind : findById store dto.id = some post)
    (himg : jsTruthy dto.image = true)
    (hgen : gen post.description = .error e) :
    update store gen dto = .error e := by
  unfold update
  rw [hfind]
  simp only [himg, if_true]
  rw [hgen]

/-- C10 witness: the failing generator at the concrete store. -/
theorem image_failure_aborts_update_witness :
    findById store1 dtoImage.id = some post1 ∧
    jsTruthy dtoImage.image = true ∧
    genDown post1.description = .error "image service down" ∧
    update store1 genDown dtoImage = .error "image service down" :=
  ⟨rfl, rfl, rfl,
    image_failure_aborts_update store1 genDown dtoImage post1
      "image service down" rfl rfl rfl⟩

end AiBlog
